import Mathlib

/-!
Verification of the story-generator adapter in `main.py`.

The program is embedded shallowly: Python strings become `List Char`,
`textwrap.dedent` and `str.strip` are transcribed from their (documented,
CPython) semantics, the f-string prompt template of `generate_novel` is
transcribed line by line, the two SDK branches become two Lean functions,
and the Streamlit button handler becomes a pure function that records the
outbound chat-completion calls and credential lookups it performs.
-/

namespace Book0821

/-- Python strings are modelled as lists of unicode code points. -/
abbrev Str := List Char

/-- The characters `[ \t]` matched by the whitespace classes of
`textwrap.dedent`'s regexes. -/
def isSpaceTab (c : Char) : Bool := c == ' ' || c == '\t'

/-- Characters for which Python's `str.isspace` holds; `str.strip()` with no
argument removes exactly these from both ends.  (ASCII whitespace plus the
Unicode separator / bidi-whitespace code points.) -/
def isPyWS (c : Char) : Bool :=
  c == ' ' || c == '\t' || c == '\n' || c == '\r' || c == '\x0b' || c == '\x0c' ||
  c == '\x1c' || c == '\x1d' || c == '\x1e' || c == '\x1f' ||
  c == '\u0085' || c == ' ' || c == ' ' ||
  (' ' ≤ c && c ≤ ' ') ||
  c == ' ' || c == ' ' || c == ' ' || c == ' ' || c == '　'

/-- Python `s.lstrip()`. -/
def pyLStrip (s : Str) : Str := s.dropWhile isPyWS

/-- Python `s.rstrip()`. -/
def pyRStrip (s : Str) : Str := (s.reverse.dropWhile isPyWS).reverse

/-- Python `s.strip()`: remove leading and trailing whitespace. -/
def pyStrip (s : Str) : Str := pyRStrip (pyLStrip s)

/-- Python `text.split('\n')`: split on every newline, keeping empty pieces
(so the result always has one more piece than there are newlines). -/
def splitNl : Str → List Str
  | [] => [[]]
  | c :: rest =>
    if c = '\n' then [] :: splitNl rest
    else
      match splitNl rest with
      | [] => [[c]]
      | l :: ls => (c :: l) :: ls

/-- Python `'\n'.join(lines)`. -/
def joinNl : List Str → Str
  | [] => []
  | [l] => l
  | l :: ls => l ++ '\n' :: joinNl ls

/-- Leading `[ \t]*` run of a line, as captured by `dedent`'s
`_leading_whitespace_re`. -/
def leadingWS (l : Str) : Str := l.takeWhile isSpaceTab

/-- A line contributes an indent to `dedent`'s margin iff it contains a
character outside `[ \t]` (the `(?:[^ \t\n])` part of the regex). -/
def hasContent (l : Str) : Bool := l.any (fun c => !(isSpaceTab c))

/-- `dedent`'s first step, `_whitespace_only_re.sub('', text)`: a line made of
one or more spaces/tabs and nothing else is replaced by the empty line. -/
def normLine (l : Str) : Str := if l ≠ [] ∧ l.all isSpaceTab then [] else l

/-- Longest common prefix of two strings.  `dedent`'s margin loop (keep the
margin while the next indent extends it, shorten to the indent when the
indent is a prefix, otherwise cut at the first mismatch) computes exactly
this. -/
def lcp : Str → Str → Str
  | c :: a, d :: b => if c = d then c :: lcp a b else []
  | _, _ => []

/-- The common margin of the normalized lines: fold `lcp` over the leading
whitespace of every line that has content (margin starts out `None`; the
first contributing line installs its indent). -/
def marginOf (ls : List Str) : Str :=
  match (ls.filter hasContent).map leadingWS with
  | [] => []
  | i :: rest => rest.foldl lcp i

/-- `textwrap.dedent(text)`: normalize whitespace-only lines to empty,
compute the common leading-whitespace margin of the remaining lines, and
strip that margin from the start of every line that carries it
(`re.sub(r'(?m)^' + margin, '', text)`). -/
def dedent (text : Str) : Str :=
  let ls := (splitNl text).map normLine
  let m := marginOf ls
  joinNl (ls.map (fun l => if m.isPrefixOf l then l.drop m.length else l))

/-- Decimal rendering of a natural number, as Python's `str(int)` produces
for the nonnegative word-count slider values (fuel-indexed so that it
reduces in the kernel). -/
def natDigitsAux : Nat → Nat → Str
  | 0, _ => []
  | fuel + 1, n =>
    if n < 10 then [Char.ofNat (48 + n)]
    else natDigitsAux fuel (n / 10) ++ [Char.ofNat (48 + n % 10)]

/-- `str(n)` for a natural number `n`. -/
def natDigits (n : Nat) : Str := natDigitsAux (n + 1) n

/-! ## The data model (spec §3) -/

/-- The transient request object assembled by the form host and passed to
`generate_novel` (temperature is only ever passed through, so it is modelled
as a rational). -/
structure StoryRequest where
  protagonist1 : Str
  protagonist2 : Str
  genre : Str
  premise : Str
  language : Str
  targetWords : Nat
  temperature : ℚ
  model : Str
deriving DecidableEq

/-- The genre choices offered by the form's selectbox. -/
def genres : List Str :=
  ["로맨스".data, "미스터리".data, "스릴러".data, "판타지".data, "SF".data,
   "호러".data, "성장소설".data, "휴먼드라마".data, "코미디".data, "사극/역사".data]

/-- The output-language choices offered by the sidebar. -/
def languages : List Str := ["한국어".data, "English".data]

/-- The model identifiers offered by the sidebar. -/
def modelIds : List Str := ["gpt-4o-mini".data, "gpt-4o".data]

/-- Validity of a `StoryRequest` (spec §3): names and premise non-empty after
trimming, enumerated fields drawn from their sets, sliders within the UI
bounds. -/
def ValidRequest (r : StoryRequest) : Prop :=
  pyStrip r.protagonist1 ≠ [] ∧ pyStrip r.protagonist2 ≠ [] ∧ pyStrip r.premise ≠ [] ∧
  r.genre ∈ genres ∧ r.language ∈ languages ∧ r.model ∈ modelIds ∧
  400 ≤ r.targetWords ∧ r.targetWords ≤ 3000 ∧
  0 ≤ r.temperature ∧ r.temperature ≤ mkRat 3 2

instance (r : StoryRequest) : Decidable (ValidRequest r) := by
  unfold ValidRequest; infer_instance

/-! ## The Prompt Builder: the f-string assigned to `style_guide` -/

/-- The eight spaces of indentation each template line carries inside the
triple-quoted f-string. -/
def ind : Str := "        ".data

/-- The f-string's lines, exactly as they appear between the opening `f"""`
(which contributes a leading empty line) and the closing `"""` (preceded by
a line holding only the indentation). -/
def rawLines (protagonist1 protagonist2 genre premise language : Str)
    (target_words : Nat) : List Str :=
  [ [],
    ind ++ ("Write a complete short story in ".data ++ (language ++ ".".data)),
    ind ++ "Requirements:".data,
    ind ++ ("- Genre: ".data ++ genre),
    ind ++ ("- Main characters: ".data ++ (protagonist1 ++ (" and ".data ++ protagonist2))),
    ind ++ "- Start with a strong hook in the first 2–3 sentences.".data,
    ind ++ "- Maintain clear scene breaks and a satisfying arc (setup → escalation → climax → resolution).".data,
    ind ++ "- Show, don\x27t tell. Keep dialogue natural.".data,
    ind ++ "- Keep pacing tight and avoid filler.".data,
    ind ++ "- Tone and diction should match the genre.".data,
    ind ++ ("- Target length: ~".data ++ (natDigits target_words ++ " words (±15%).".data)),
    ind ++ "- End with a resonant final line (no meta commentary).".data,
    [],
    ind ++ "Backstory / seed premise:".data,
    ind ++ pyStrip premise,
    ind ]

/-- The lines of the finished style guide: what `dedent` leaves of each
template line once the common eight-space margin is removed (`tp` stands for
the trimmed premise). -/
def coreLines (protagonist1 protagonist2 genre language : Str)
    (target_words : Nat) (tp : Str) : List Str :=
  [ "Write a complete short story in ".data ++ (language ++ ".".data),
    "Requirements:".data,
    "- Genre: ".data ++ genre,
    "- Main characters: ".data ++ (protagonist1 ++ (" and ".data ++ protagonist2)),
    "- Start with a strong hook in the first 2–3 sentences.".data,
    "- Maintain clear scene breaks and a satisfying arc (setup → escalation → climax → resolution).".data,
    "- Show, don\x27t tell. Keep dialogue natural.".data,
    "- Keep pacing tight and avoid filler.".data,
    "- Tone and diction should match the genre.".data,
    "- Target length: ~".data ++ (natDigits target_words ++ " words (±15%).".data),
    "- End with a resonant final line (no meta commentary).".data,
    [],
    "Backstory / seed premise:".data,
    tp ]

/-- `style_guide = textwrap.dedent(f"""...""").strip()` from
`generate_novel`. -/
def style_guide (protagonist1 protagonist2 genre premise language : Str)
    (target_words : Nat) : Str :=
  pyStrip (dedent (joinNl (rawLines protagonist1 protagonist2 genre premise language target_words)))

/-- The Prompt Builder applied to a whole request. -/
def styleGuideOf (r : StoryRequest) : Str :=
  style_guide r.protagonist1 r.protagonist2 r.genre r.premise r.language r.targetWords

/-! ## Credential resolution and client construction -/

/-- `_get_api_key()`: return `st.secrets["OPENAI_API_KEY"]` when the key is
present in the secrets store, else `os.getenv("OPENAI_API_KEY")`.  The two
sources are passed in as the value each store associates to
`"OPENAI_API_KEY"` (`none` when the name is absent). -/
def _get_api_key (secret env : Option Str) : Option Str :=
  match secret with
  | some v => some v
  | none => env

/-- Python truthiness test `not api_key` on an optional string: `None` and
the empty string are falsy. -/
def pyFalsy (o : Option Str) : Bool :=
  match o with
  | none => true
  | some s => s.isEmpty

/-- `_get_client()`: resolve the key and `st.stop()` (modelled as `none`)
when it is falsy; otherwise a usable client exists (the new style wraps the
key in an `OpenAI` object, the legacy style stores it in the module global —
either way the only observable is the key itself). -/
def _get_client (secret env : Option Str) : Option Str :=
  let api_key := _get_api_key secret env
  if pyFalsy api_key then none else api_key

/-! ## The Completion Client -/

/-- `_SDK_STYLE`: which variant of the client library imported. -/
inductive SdkStyle
  | new
  | legacy
deriving DecidableEq

/-- The module-level `try: from openai import OpenAI ... except: import
openai` selection: `"new"` iff the new-style SDK is importable. -/
def sdkStyleOf (newImportable : Bool) : SdkStyle :=
  if newImportable then SdkStyle.new else SdkStyle.legacy

/-- One `{role, content}` entry of the outbound `messages` list. -/
structure ChatMessage where
  role : Str
  content : Str
deriving DecidableEq

/-- The parameters of one outbound chat-completion request. -/
structure ChatRequest where
  model : Str
  temperature : ℚ
  max_tokens : Nat
  messages : List ChatMessage
deriving DecidableEq

/-- The fixed system-role instruction sent with every request. -/
def systemContent : Str :=
  "You are an award-winning novelist. You craft vivid scenes, believable dialogue, and tight plots.".data

/-- The request assembled by the new-SDK branch
(`client.chat.completions.create(...)`, lines 73–89). -/
def newChatRequest (r : StoryRequest) : ChatRequest :=
  { model := r.model,
    temperature := r.temperature,
    max_tokens := 4096,
    messages :=
      [ { role := "system".data, content := systemContent },
        { role := "user".data, content := styleGuideOf r } ] }

/-- The request assembled by the legacy-SDK branch
(`openai.ChatCompletion.create(...)`, lines 97–113). -/
def legacyChatRequest (r : StoryRequest) : ChatRequest :=
  { model := r.model,
    temperature := r.temperature,
    max_tokens := 4096,
    messages :=
      [ { role := "system".data, content := systemContent },
        { role := "user".data, content := styleGuideOf r } ] }

/-- The external chat-completion service: for a request it either yields the
message content extracted by the caller (`.ok`) or raises, with `str(e)`
carried in `.error` (any failure inside the `try` block — network error,
missing key, malformed/empty response — surfaces this way). -/
def Backend : Type := ChatRequest → Except Str Str

/-- The prefix `generate_novel` wraps around the underlying failure text:
`RuntimeError(f"OpenAI API error: {e}")`. -/
def apiErrPrefix : Str := "OpenAI API error: ".data

/-- What one call to `generate_novel` can end in. -/
inductive GenOutcome
  | halted
  | apiError (msg : Str)
  | success (story : Str)
deriving DecidableEq

/-- One `generate_novel` invocation, with the outbound calls it issued, the
SDK branch(es) it executed, and the number of `_get_api_key` lookups it
performed. -/
structure GenResult where
  outcome : GenOutcome
  calls : List ChatRequest
  branches : List SdkStyle
  keyResolutions : Nat
deriving DecidableEq

/-- The `if _SDK_STYLE == "new"` branch of `generate_novel` (lines 71–92):
issue the request, return `resp.choices[0].message.content.strip()` on
success, wrap any exception into `RuntimeError("OpenAI API error: " + str(e))`. -/
def runNewBranch (backend : Backend) (r : StoryRequest) : GenResult :=
  let req := newChatRequest r
  match backend req with
  | Except.ok content =>
      { outcome := GenOutcome.success (pyStrip content), calls := [req],
        branches := [SdkStyle.new], keyResolutions := 1 }
  | Except.error e =>
      { outcome := GenOutcome.apiError (apiErrPrefix ++ e), calls := [req],
        branches := [SdkStyle.new], keyResolutions := 1 }

/-- The legacy branch of `generate_novel` (lines 95–116): issue the request,
return `resp["choices"][0]["message"]["content"].strip()` on success, wrap
any exception the same way. -/
def runLegacyBranch (backend : Backend) (r : StoryRequest) : GenResult :=
  let req := legacyChatRequest r
  match backend req with
  | Except.ok content =>
      { outcome := GenOutcome.success (pyStrip content), calls := [req],
        branches := [SdkStyle.legacy], keyResolutions := 1 }
  | Except.error e =>
      { outcome := GenOutcome.apiError (apiErrPrefix ++ e), calls := [req],
        branches := [SdkStyle.legacy], keyResolutions := 1 }

/-- `generate_novel(...)`: build the style guide, obtain a client (resolving
the key once; `st.stop()` when it is falsy, so no call goes out), then run
whichever SDK branch the process-wide `_SDK_STYLE` selects. -/
def generate_novel (sdk : SdkStyle) (secret env : Option Str) (backend : Backend)
    (r : StoryRequest) : GenResult :=
  match _get_client secret env with
  | none => { outcome := GenOutcome.halted, calls := [], branches := [], keyResolutions := 1 }
  | some _ =>
      match sdk with
      | SdkStyle.new => runNewBranch backend r
      | SdkStyle.legacy => runLegacyBranch backend r

/-! ## The submit handler (`if cta:` block, lines 175–213) -/

/-- The form state at the moment the button is pressed. -/
structure UIState where
  protagonist1 : Str
  protagonist2 : Str
  premise : Str
  genre : Str
  default_lang : Str
  model : Str
  target_words : Nat
  temperature : ℚ
deriving DecidableEq

/-- What a button press can end in. -/
inductive CtaOutcome
  | missingKeyError
  | missingInputWarning
  | generationError (msg : Str)
  | displayed (story : Str)
  | halted
deriving DecidableEq

/-- One full button press, with its calls, branches and key lookups. -/
structure CtaResult where
  outcome : CtaOutcome
  calls : List ChatRequest
  branches : List SdkStyle
  keyResolutions : Nat
deriving DecidableEq

/-- The `StoryRequest` the handler passes to `generate_novel`: protagonist
names are stripped at the call site, the premise is passed raw. -/
def requestOfUI (ui : UIState) : StoryRequest :=
  { protagonist1 := pyStrip ui.protagonist1,
    protagonist2 := pyStrip ui.protagonist2,
    genre := ui.genre,
    premise := ui.premise,
    language := ui.default_lang,
    targetWords := ui.target_words,
    temperature := ui.temperature,
    model := ui.model }

/-- The `if cta:` handler: resolve the key itself and stop with an error
message when it is falsy; warn and stop when a name or the premise is the
empty string; otherwise call `generate_novel` (which resolves the key again)
and either display the story or surface the wrapped error. -/
def ctaRun (sdk : SdkStyle) (secret env : Option Str) (backend : Backend)
    (ui : UIState) : CtaResult :=
  let api_key := _get_api_key secret env
  if pyFalsy api_key then
    { outcome := CtaOutcome.missingKeyError, calls := [], branches := [], keyResolutions := 1 }
  else if ui.protagonist1.isEmpty || ui.protagonist2.isEmpty || ui.premise.isEmpty then
    { outcome := CtaOutcome.missingInputWarning, calls := [], branches := [], keyResolutions := 1 }
  else
    let g := generate_novel sdk secret env backend (requestOfUI ui)
    { outcome :=
        match g.outcome with
        | GenOutcome.halted => CtaOutcome.halted
        | GenOutcome.apiError msg => CtaOutcome.generationError msg
        | GenOutcome.success story => CtaOutcome.displayed story,
      calls := g.calls,
      branches := g.branches,
      keyResolutions := 1 + g.keyResolutions }

/-- A process lifetime: the SDK style is fixed by the import that succeeded
at startup, and every submission in the session is served by
`generate_novel` with that same style. -/
def processRun (newImportable : Bool) (secret env : Option Str) (backend : Backend)
    (reqs : List StoryRequest) : List GenResult :=
  reqs.map (generate_novel (sdkStyleOf newImportable) secret env backend)

/-! ## Occurrence counting, for the exactly-once property -/

/-- Number of positions of `s` at which `pat` occurs as a substring. -/
def countOccs (pat s : Str) : Nat :=
  ((List.range (s.length + 1)).filter (fun i => pat.isPrefixOf (s.drop i))).length

/-! ## Concrete inputs used to instantiate the theorems -/

/-- The end-to-end example request from the spec. -/
def r0 : StoryRequest :=
  { protagonist1 := "지우".data, protagonist2 := "민서".data, genre := "판타지".data,
    premise := "오래된 가게...".data, language := "한국어".data,
    targetWords := 1200, temperature := mkRat 9 10, model := "gpt-4o-mini".data }

/-- A second copy of the example request, written separately. -/
def r0copy : StoryRequest :=
  { protagonist1 := "지우".data, protagonist2 := "민서".data, genre := "판타지".data,
    premise := "오래된 가게...".data, language := "한국어".data,
    targetWords := 1200, temperature := mkRat 9 10, model := "gpt-4o-mini".data }

/-- A valid request whose first protagonist name also occurs inside the fixed
English template text. -/
def cexReq : StoryRequest :=
  { protagonist1 := "a".data, protagonist2 := "b".data, genre := "SF".data,
    premise := "c".data, language := "English".data,
    targetWords := 400, temperature := mkRat 9 10, model := "gpt-4o-mini".data }

/-- A stub backend that always succeeds with padded content. -/
def okBackend : Backend := fun _ => Except.ok ("  THE END.  ".data)

/-- A stub backend that always raises. -/
def errBackend : Backend := fun _ => Except.error ("boom".data)

/-- The form state matching the spec's end-to-end example. -/
def ui0 : UIState :=
  { protagonist1 := "지우".data, protagonist2 := "민서".data, premise := "오래된 가게...".data,
    genre := "판타지".data, default_lang := "한국어".data, model := "gpt-4o-mini".data,
    target_words := 1200, temperature := mkRat 9 10 }

/-- A concrete secrets store holding a key. -/
def sec0 : Option Str := some ("sk-test".data)

/-- The request each SDK branch would send, as selected by `_SDK_STYLE`. -/
def chatRequestOf (sdk : SdkStyle) (r : StoryRequest) : ChatRequest :=
  match sdk with
  | SdkStyle.new => newChatRequest r
  | SdkStyle.legacy => legacyChatRequest r

/-! ## Structural lemmas about the string helpers -/

theorem joinNl_cons_cons (a b : Str) (t : List Str) :
    joinNl (a :: b :: t) = a ++ '\n' :: joinNl (b :: t) := rfl

theorem splitNl_no_nl (l : Str) (h : '\n' ∉ l) : splitNl l = [l] := by
  induction l with
  | nil => rfl
  | cons c rest ih =>
    have hc : ¬ c = '\n' := fun hc => h (hc ▸ List.mem_cons_self c rest)
    have hr : '\n' ∉ rest := fun hr => h (List.mem_cons_of_mem c hr)
    unfold splitNl
    rw [if_neg hc, ih hr]

theorem splitNl_cons_nl (r : Str) : splitNl ('\n' :: r) = [] :: splitNl r := rfl

theorem splitNl_cons_other (c : Char) (r : Str) (hc : ¬ c = '\n') :
    splitNl (c :: r) =
      match splitNl r with
      | [] => [[c]]
      | l :: ls => (c :: l) :: ls := by
  simp only [splitNl]
  rw [if_neg hc]

theorem splitNl_append (l r : Str) (h : '\n' ∉ l) :
    splitNl (l ++ '\n' :: r) = l :: splitNl r := by
  induction l with
  | nil => exact splitNl_cons_nl r
  | cons c rest ih =>
    have hc : ¬ c = '\n' := fun hc => h (hc ▸ List.mem_cons_self c rest)
    have hr : '\n' ∉ rest := fun hr => h (List.mem_cons_of_mem c hr)
    show splitNl (c :: (rest ++ '\n' :: r)) = (c :: rest) :: splitNl r
    rw [splitNl_cons_other c _ hc, ih hr]

theorem splitNl_joinNl (ls : List Str) (hne : ls ≠ []) (h : ∀ l ∈ ls, '\n' ∉ l) :
    splitNl (joinNl ls) = ls := by
  induction ls with
  | nil => exact absurd rfl hne
  | cons l rest ih =>
    cases rest with
    | nil => exact splitNl_no_nl l (h l (List.mem_cons_self l []))
    | cons m ms =>
      rw [joinNl_cons_cons, splitNl_append l _ (h l (List.mem_cons_self l (m :: ms))),
        ih (by simp) (fun x hx => h x (List.mem_cons_of_mem l hx))]

theorem joinNl_append_last (L : List Str) (x : Str) (hL : L ≠ []) :
    joinNl (L ++ [x]) = joinNl L ++ '\n' :: x := by
  induction L with
  | nil => exact absurd rfl hL
  | cons a t ih =>
    cases t with
    | nil => rfl
    | cons b bs =>
      calc joinNl ((a :: b :: bs) ++ [x])
          = a ++ '\n' :: joinNl ((b :: bs) ++ [x]) := rfl
        _ = a ++ '\n' :: (joinNl (b :: bs) ++ '\n' :: x) := by rw [ih (by simp)]
        _ = (a ++ '\n' :: joinNl (b :: bs)) ++ '\n' :: x := by
              rw [List.append_assoc, List.cons_append]

theorem lcp_self (l : Str) : lcp l l = l := by
  induction l with
  | nil => rfl
  | cons c t ih => unfold lcp; rw [if_pos rfl, ih]

theorem foldl_lcp_const (i : Str) (xs : List Str) (h : ∀ x ∈ xs, x = i) :
    List.foldl lcp i xs = i := by
  induction xs with
  | nil => rfl
  | cons b bs ih =>
    have hb : b = i := h b (List.mem_cons_self b bs)
    subst hb
    rw [List.foldl_cons, lcp_self]
    exact ih (fun x hx => h x (List.mem_cons_of_mem b hx))

theorem marginOf_const (ls : List Str) (i : Str)
    (h : ∀ l ∈ ls, hasContent l = true → leadingWS l = i)
    (hex : ∃ l ∈ ls, hasContent l = true) :
    marginOf ls = i := by
  have hmap : ∀ x ∈ (ls.filter hasContent).map leadingWS, x = i := by
    intro x hx
    simp only [List.mem_map, List.mem_filter] at hx
    obtain ⟨l, ⟨hl, hcl⟩, rfl⟩ := hx
    exact h l hl hcl
  obtain ⟨l, hl, hcl⟩ := hex
  have hm : leadingWS l ∈ (ls.filter hasContent).map leadingWS :=
    List.mem_map_of_mem leadingWS (List.mem_filter.mpr ⟨hl, hcl⟩)
  unfold marginOf
  cases hq : (ls.filter hasContent).map leadingWS with
  | nil => rw [hq] at hm; cases hm
  | cons a as =>
    have ha : a = i := hmap a (hq ▸ List.mem_cons_self a as)
    have has : ∀ x ∈ as, x = i := fun x hx => hmap x (hq ▸ List.mem_cons_of_mem a hx)
    show List.foldl lcp a as = i
    rw [ha]
    exact foldl_lcp_const i as has

/-! ## Lemmas about Python `strip` -/

theorem spacetab_pyws (c : Char) (h : isSpaceTab c = true) : isPyWS c = true := by
  simp only [isSpaceTab, Bool.or_eq_true, beq_iff_eq] at h
  rcases h with h | h <;> simp [isPyWS, h]

theorem pyStrip_prefix_lstrip (s : Str) : pyStrip s <+: pyLStrip s := by
  unfold pyStrip pyRStrip
  conv_rhs => rw [← List.reverse_reverse (pyLStrip s)]
  exact List.reverse_prefix.mpr (List.dropWhile_suffix isPyWS)

theorem pyStrip_head_not_ws (s : Str) (c : Char) (rest : Str) (h : pyStrip s = c :: rest) :
    isPyWS c = false := by
  have hpre : pyStrip s <+: pyLStrip s := pyStrip_prefix_lstrip s
  rw [h] at hpre
  obtain ⟨t, ht⟩ := hpre
  have h2 : s.dropWhile isPyWS = c :: (rest ++ t) := by
    rw [show pyLStrip s = s.dropWhile isPyWS from rfl] at ht
    rw [← ht, List.cons_append]
  have h3 := List.head?_dropWhile_not isPyWS s
  rw [h2] at h3
  simpa using h3

theorem pyStrip_reverse (s : Str) :
    (pyStrip s).reverse = (pyLStrip s).reverse.dropWhile isPyWS := by
  unfold pyStrip pyRStrip
  rw [List.reverse_reverse]

theorem pyStrip_last_not_ws (s : Str) (c : Char) (rest : Str)
    (h : (pyStrip s).reverse = c :: rest) : isPyWS c = false := by
  rw [pyStrip_reverse] at h
  have h3 := List.head?_dropWhile_not isPyWS (pyLStrip s).reverse
  rw [h] at h3
  simpa using h3

theorem mem_pyStrip (s : Str) (c : Char) (h : c ∈ pyStrip s) : c ∈ s := by
  have h1 : c ∈ pyLStrip s := (pyStrip_prefix_lstrip s).subset h
  exact (List.dropWhile_suffix isPyWS).subset h1

theorem takeWhile_spacetab_pyStrip (s : Str) (h : pyStrip s ≠ []) :
    (pyStrip s).takeWhile isSpaceTab = [] := by
  obtain ⟨c, rest, hc⟩ := List.exists_cons_of_ne_nil h
  rw [hc, List.takeWhile_cons_of_neg]
  intro hst
  have hws := pyStrip_head_not_ws s c rest hc
  rw [spacetab_pyws c hst] at hws
  cases hws

/-! ## Per-line facts feeding the dedent computation -/

theorem nmem_app (c : Char) (a b : Str) (ha : c ∉ a) (hb : c ∉ b) : c ∉ a ++ b :=
  fun h => (List.mem_append.mp h).elim (fun x => ha x) (fun x => hb x)

theorem takeWhile_st_nil_append (a b : Str) (hne : a ≠ [])
    (ha : a.takeWhile isSpaceTab = []) :
    (a ++ b).takeWhile isSpaceTab = [] := by
  cases a with
  | nil => exact absurd rfl hne
  | cons c cs =>
    rw [List.takeWhile_cons] at ha
    by_cases h : isSpaceTab c = true
    · rw [if_pos h] at ha; cases ha
    · rw [List.cons_append, List.takeWhile_cons_of_neg h]

theorem leadingWS_ind_append (x : Str) (hx : x.takeWhile isSpaceTab = []) :
    leadingWS (ind ++ x) = ind := by
  unfold leadingWS
  rw [List.takeWhile_append_of_pos (by decide : ∀ a ∈ ind, isSpaceTab a), hx,
    List.append_nil]

theorem hasContent_append_l (a b : Str) (h : hasContent a = true) :
    hasContent (a ++ b) = true := by
  unfold hasContent at *
  rw [List.any_append, h, Bool.true_or]

theorem hasContent_append_r (a b : Str) (h : hasContent b = true) :
    hasContent (a ++ b) = true := by
  unfold hasContent at *
  rw [List.any_append, h, Bool.or_true]

theorem hasContent_pyStrip (s : Str) (h : pyStrip s ≠ []) :
    hasContent (pyStrip s) = true := by
  obtain ⟨c, rest, hc⟩ := List.exists_cons_of_ne_nil h
  have hws := pyStrip_head_not_ws s c rest hc
  have hst : isSpaceTab c = false := by
    cases hq : isSpaceTab c
    · rfl
    · rw [spacetab_pyws c hq] at hws; cases hws
  rw [hc]
  unfold hasContent
  rw [List.any_cons, hst]
  rfl

theorem normLine_nil : normLine [] = [] := by
  unfold normLine
  rw [if_neg]
  rintro ⟨h, -⟩
  exact h rfl

theorem normLine_of_content (l : Str) (h : hasContent l = true) : normLine l = l := by
  unfold normLine
  rw [if_neg]
  rintro ⟨-, hall⟩
  simp only [hasContent, List.any_eq_true] at h
  obtain ⟨c, hc, hnc⟩ := h
  have hct := (List.all_eq_true.mp hall) c hc
  rw [hct] at hnc
  cases hnc

theorem normLine_ind_append (x : Str) (h : hasContent x = true) :
    normLine (ind ++ x) = ind ++ x :=
  normLine_of_content _ (hasContent_append_r ind x h)

theorem normLine_ind : normLine ind = [] := by
  unfold normLine
  rw [if_pos ⟨by decide, by decide⟩]

/-! ## The decimal rendering contains only digit characters -/

theorem natDigitsAux_chars (fuel n : Nat) :
    ∀ c ∈ natDigitsAux fuel n, c ≠ '\n' ∧ isSpaceTab c = false := by
  induction fuel generalizing n with
  | zero => intro c hc; cases hc
  | succ fuel ih =>
    intro c hc
    unfold natDigitsAux at hc
    by_cases h : n < 10
    · rw [if_pos h] at hc
      rw [List.mem_singleton] at hc
      subst hc
      interval_cases n <;> exact ⟨by decide, by decide⟩
    · rw [if_neg h] at hc
      rcases List.mem_append.mp hc with h1 | h1
      · exact ih (n / 10) c h1
      · rw [List.mem_singleton] at h1
        subst h1
        have hm : n % 10 < 10 := Nat.mod_lt _ (by decide)
        generalize n % 10 = m at hm ⊢
        interval_cases m <;> exact ⟨by decide, by decide⟩

theorem nl_nmem_natDigits (n : Nat) : '\n' ∉ natDigits n :=
  fun h => ((natDigitsAux_chars (n + 1) n) '\n' h).1 rfl

/-! ## Joining lines preserves substrings -/

theorem infix_joinNl (ls : List Str) (l : Str) (h : l ∈ ls) : l <:+: joinNl ls := by
  induction ls with
  | nil => cases h
  | cons a t ih =>
    rcases List.mem_cons.mp h with rfl | hmem
    · cases t with
      | nil => exact List.infix_rfl
      | cons b bs =>
        rw [joinNl_cons_cons]
        exact List.IsPrefix.isInfix (List.prefix_append l ('\n' :: joinNl (b :: bs)))
    · cases t with
      | nil => cases hmem
      | cons b bs =>
        rw [joinNl_cons_cons]
        have h1 : joinNl (b :: bs) <:+ a ++ '\n' :: joinNl (b :: bs) :=
          List.IsSuffix.trans ⟨['\n'], rfl⟩ (List.suffix_append a ('\n' :: joinNl (b :: bs)))
        exact List.IsInfix.trans (ih hmem) (List.IsSuffix.isInfix h1)

/-! ## The final strip around the dedented block -/

theorem pyStrip_wrap (L : List Str) (c d : Char)
    (hL : L ≠ [])
    (hj : (joinNl L).head? = some c) (hc : isPyWS c = false)
    (hr : (joinNl L).reverse.head? = some d) (hd : isPyWS d = false) :
    pyStrip (joinNl ([] :: (L ++ [[]]))) = joinNl L := by
  have h1 : joinNl ([] :: (L ++ [[]])) = '\n' :: (joinNl L ++ ['\n']) := by
    cases L with
    | nil => exact absurd rfl hL
    | cons m ms =>
      rw [show ([] : Str) :: ((m :: ms) ++ [[]]) = [] :: (m :: ms) ++ [[]] from rfl,
        joinNl_append_last ([] :: m :: ms) [] (by simp), joinNl_cons_cons]
      rfl
  obtain ⟨a, t, hat⟩ : ∃ a t, joinNl L = a :: t := by
    cases hq : joinNl L with
    | nil => rw [hq] at hj; cases hj
    | cons a t => exact ⟨a, t, rfl⟩
  have hac : a = c := by rw [hat] at hj; injection hj
  subst hac
  obtain ⟨b, u, hbu⟩ : ∃ b u, (joinNl L).reverse = b :: u := by
    cases hq : (joinNl L).reverse with
    | nil => rw [hq] at hr; cases hr
    | cons b u => exact ⟨b, u, rfl⟩
  have hbd : b = d := by rw [hbu] at hr; injection hr
  subst hbd
  rw [h1]
  unfold pyStrip pyLStrip pyRStrip
  rw [List.dropWhile_cons_of_pos (by decide : isPyWS '\n' = true)]
  rw [hat, List.cons_append,
    List.dropWhile_cons_of_neg (by rw [hc]; exact Bool.false_ne_true)]
  rw [← List.cons_append, ← hat, List.reverse_append, List.reverse_singleton,
    List.singleton_append,
    List.dropWhile_cons_of_pos (by decide : isPyWS '\n' = true)]
  rw [hbu, List.dropWhile_cons_of_neg (by rw [hd]; exact Bool.false_ne_true), ← hbu,
    List.reverse_reverse]

/-! ## Computing `dedent` on the template -/

theorem dedentStep_ind (x : Str) :
    (if ind.isPrefixOf (ind ++ x) then (ind ++ x).drop ind.length else ind ++ x) = x := by
  rw [if_pos (List.isPrefixOf_iff_prefix.mpr (List.prefix_append ind x)), List.drop_left]

theorem dedentStep_nil :
    (if ind.isPrefixOf ([] : Str) then List.drop ind.length ([] : Str) else ([] : Str)) =
      ([] : Str) := by
  rw [if_neg (by decide)]

theorem dedent_rawLines (p1 p2 g prem lang : Str) (tw : Nat)
    (hp1 : '\n' ∉ p1) (hp2 : '\n' ∉ p2) (hg : '\n' ∉ g) (hl : '\n' ∉ lang)
    (hprem : '\n' ∉ prem) (hne : pyStrip prem ≠ []) :
    dedent (joinNl (rawLines p1 p2 g prem lang tw)) =
      joinNl ([] :: (coreLines p1 p2 g lang tw (pyStrip prem) ++ [[]])) := by
  have hnlSG : '\n' ∉ pyStrip prem := fun h => hprem (mem_pyStrip prem '\n' h)
  have hall : ∀ l ∈ rawLines p1 p2 g prem lang tw, '\n' ∉ l := by
    intro l hmem
    simp only [rawLines, List.mem_cons, List.not_mem_nil, or_false] at hmem
    rcases hmem with rfl | rfl | rfl | rfl | rfl | rfl | rfl | rfl | rfl | rfl | rfl | rfl |
      rfl | rfl | rfl | rfl
    · exact List.not_mem_nil '\n'
    · exact nmem_app _ _ _ (by decide)
        (nmem_app _ _ _ (by decide) (nmem_app _ _ _ hl (by decide)))
    · decide
    · exact nmem_app _ _ _ (by decide) (nmem_app _ _ _ (by decide) hg)
    · exact nmem_app _ _ _ (by decide) (nmem_app _ _ _ (by decide)
        (nmem_app _ _ _ hp1 (nmem_app _ _ _ (by decide) hp2)))
    · decide
    · decide
    · decide
    · decide
    · decide
    · exact nmem_app _ _ _ (by decide) (nmem_app _ _ _ (by decide)
        (nmem_app _ _ _ (nl_nmem_natDigits tw) (by decide)))
    · decide
    · exact List.not_mem_nil '\n'
    · decide
    · exact nmem_app _ _ _ (by decide) hnlSG
    · decide
  have hsplit : splitNl (joinNl (rawLines p1 p2 g prem lang tw)) =
      rawLines p1 p2 g prem lang tw :=
    splitNl_joinNl _ (by simp [rawLines]) hall
  have hC1 : hasContent ("Write a complete short story in ".data ++ (lang ++ ".".data)) = true :=
    hasContent_append_l _ _ (by decide)
  have hC3 : hasContent ("- Genre: ".data ++ g) = true :=
    hasContent_append_l _ _ (by decide)
  have hC4 : hasContent
      ("- Main characters: ".data ++ (p1 ++ (" and ".data ++ p2))) = true :=
    hasContent_append_l _ _ (by decide)
  have hC10 : hasContent
      ("- Target length: ~".data ++ (natDigits tw ++ " words (±15%).".data)) = true :=
    hasContent_append_l _ _ (by decide)
  have hC14 : hasContent (pyStrip prem) = true := hasContent_pyStrip prem hne
  have hnorm : List.map normLine (rawLines p1 p2 g prem lang tw) =
      [ [],
        ind ++ ("Write a complete short story in ".data ++ (lang ++ ".".data)),
        ind ++ "Requirements:".data,
        ind ++ ("- Genre: ".data ++ g),
        ind ++ ("- Main characters: ".data ++ (p1 ++ (" and ".data ++ p2))),
        ind ++ "- Start with a strong hook in the first 2–3 sentences.".data,
        ind ++ "- Maintain clear scene breaks and a satisfying arc (setup → escalation → climax → resolution).".data,
        ind ++ "- Show, don\x27t tell. Keep dialogue natural.".data,
        ind ++ "- Keep pacing tight and avoid filler.".data,
        ind ++ "- Tone and diction should match the genre.".data,
        ind ++ ("- Target length: ~".data ++ (natDigits tw ++ " words (±15%).".data)),
        ind ++ "- End with a resonant final line (no meta commentary).".data,
        [],
        ind ++ "Backstory / seed premise:".data,
        ind ++ pyStrip prem,
        [] ] := by
    simp only [rawLines, List.map_cons, List.map_nil, normLine_nil, normLine_ind]
    rw [normLine_ind_append _ hC1, normLine_ind_append _ (by decide),
      normLine_ind_append _ hC3, normLine_ind_append _ hC4,
      normLine_ind_append _ (by decide), normLine_ind_append _ (by decide),
      normLine_ind_append _ (by decide), normLine_ind_append _ (by decide),
      normLine_ind_append _ (by decide), normLine_ind_append _ hC10,
      normLine_ind_append _ (by decide), normLine_ind_append _ (by decide),
      normLine_ind_append _ hC14]
  have hmargin : marginOf (List.map normLine (rawLines p1 p2 g prem lang tw)) = ind := by
    rw [hnorm]
    apply marginOf_const
    · intro l hmem
      simp only [List.mem_cons, List.not_mem_nil, or_false] at hmem
      rcases hmem with rfl | rfl | rfl | rfl | rfl | rfl | rfl | rfl | rfl | rfl | rfl | rfl |
        rfl | rfl | rfl | rfl
      · intro hx; exact absurd hx (by decide)
      · exact fun _ => leadingWS_ind_append _
          (takeWhile_st_nil_append _ _ (by decide) (by decide))
      · intro hx; decide
      · exact fun _ => leadingWS_ind_append _
          (takeWhile_st_nil_append _ _ (by decide) (by decide))
      · exact fun _ => leadingWS_ind_append _
          (takeWhile_st_nil_append _ _ (by decide) (by decide))
      · intro hx; decide
      · intro hx; decide
      · intro hx; decide
      · intro hx; decide
      · intro hx; decide
      · exact fun _ => leadingWS_ind_append _
          (takeWhile_st_nil_append _ _ (by decide) (by decide))
      · intro hx; decide
      · intro hx; exact absurd hx (by decide)
      · intro hx; decide
      · exact fun _ => leadingWS_ind_append _ (takeWhile_spacetab_pyStrip prem hne)
      · intro hx; exact absurd hx (by decide)
    · exact ⟨ind ++ "Requirements:".data, by simp, by decide⟩
  simp only [dedent]
  simp only [hsplit]
  simp only [hmargin]
  simp only [hnorm]
  simp only [List.map_cons, List.map_nil, dedentStep_ind, dedentStep_nil]
  simp [coreLines]

/-- `style_guide` written as the join of its finished lines, under the
hypotheses that the interpolated fields are single-line and the premise has
visible content. -/
theorem style_guide_eq (p1 p2 g prem lang : Str) (tw : Nat)
    (hp1 : '\n' ∉ p1) (hp2 : '\n' ∉ p2) (hg : '\n' ∉ g) (hl : '\n' ∉ lang)
    (hprem : '\n' ∉ prem) (hne : pyStrip prem ≠ []) :
    style_guide p1 p2 g prem lang tw =
      joinNl (coreLines p1 p2 g lang tw (pyStrip prem)) := by
  have hrev : (pyStrip prem).reverse ≠ [] := by
    intro h
    exact hne (by simpa using h)
  obtain ⟨d, ds, hdq⟩ := List.exists_cons_of_ne_nil hrev
  have hdws : isPyWS d = false := pyStrip_last_not_ws prem d ds hdq
  unfold style_guide
  rw [dedent_rawLines p1 p2 g prem lang tw hp1 hp2 hg hl hprem hne]
  refine pyStrip_wrap _ 'W' d (by simp [coreLines]) ?_ (by decide) ?_ hdws
  · show (joinNl (coreLines p1 p2 g lang tw (pyStrip prem))).head? = some 'W'
    unfold coreLines
    rw [joinNl_cons_cons, List.append_assoc,
      show ("Write a complete short story in ".data) =
        'W' :: ("rite a complete short story in ".data) from rfl,
      List.cons_append, List.head?_cons]
  · show (joinNl (coreLines p1 p2 g lang tw (pyStrip prem))).reverse.head? = some d
    have e2 : coreLines p1 p2 g lang tw (pyStrip prem) =
        [ "Write a complete short story in ".data ++ (lang ++ ".".data),
          "Requirements:".data,
          "- Genre: ".data ++ g,
          "- Main characters: ".data ++ (p1 ++ (" and ".data ++ p2)),
          "- Start with a strong hook in the first 2–3 sentences.".data,
          "- Maintain clear scene breaks and a satisfying arc (setup → escalation → climax → resolution).".data,
          "- Show, don\x27t tell. Keep dialogue natural.".data,
          "- Keep pacing tight and avoid filler.".data,
          "- Tone and diction should match the genre.".data,
          "- Target length: ~".data ++ (natDigits tw ++ " words (±15%).".data),
          "- End with a resonant final line (no meta commentary).".data,
          [],
          "Backstory / seed premise:".data ] ++ [pyStrip prem] := by
      simp [coreLines]
    rw [e2, joinNl_append_last _ _ (by simp), List.reverse_append, List.reverse_cons,
      hdq, List.cons_append, List.cons_append, List.head?_cons]

/-! ## Helpers about the Completion Client -/

theorem _get_client_of_truthy (secret env : Option Str)
    (h : pyFalsy (_get_api_key secret env) = false) :
    _get_client secret env = _get_api_key secret env := by
  show (if pyFalsy (_get_api_key secret env) then none else _get_api_key secret env) =
    _get_api_key secret env
  simp [h]

theorem generate_novel_branch (sdk : SdkStyle) (secret env : Option Str) (backend : Backend)
    (r : StoryRequest) (h : pyFalsy (_get_api_key secret env) = false) :
    generate_novel sdk secret env backend r =
      match sdk with
      | SdkStyle.new => runNewBranch backend r
      | SdkStyle.legacy => runLegacyBranch backend r := by
  unfold generate_novel
  rw [_get_client_of_truthy secret env h]
  cases hk : _get_api_key secret env with
  | none => rw [hk] at h; cases h
  | some k => rfl

theorem generate_novel_oneKeyLookup (sdk : SdkStyle) (secret env : Option Str)
    (backend : Backend) (r : StoryRequest) :
    (generate_novel sdk secret env backend r).keyResolutions = 1 := by
  unfold generate_novel
  cases _get_client secret env with
  | none => rfl
  | some k =>
    cases sdk
    · show (runNewBranch backend r).keyResolutions = 1
      simp only [runNewBranch]
      cases backend (newChatRequest r) <;> rfl
    · show (runLegacyBranch backend r).keyResolutions = 1
      simp only [runLegacyBranch]
      cases backend (legacyChatRequest r) <;> rfl

theorem generate_novel_branchlog (sdk : SdkStyle) (secret env : Option Str)
    (backend : Backend) (r : StoryRequest) :
    (generate_novel sdk secret env backend r).branches = [] ∨
    (generate_novel sdk secret env backend r).branches = [sdk] := by
  unfold generate_novel
  cases _get_client secret env with
  | none => exact Or.inl rfl
  | some k =>
    right
    cases sdk
    · show (runNewBranch backend r).branches = _
      simp only [runNewBranch]
      cases backend (newChatRequest r) <;> rfl
    · show (runLegacyBranch backend r).branches = _
      simp only [runLegacyBranch]
      cases backend (legacyChatRequest r) <;> rfl

theorem no_nl_genres (g : Str) (h : g ∈ genres) : '\n' ∉ g := by
  simp only [genres, List.mem_cons, List.not_mem_nil, or_false] at h
  rcases h with rfl | rfl | rfl | rfl | rfl | rfl | rfl | rfl | rfl | rfl <;> decide

theorem no_nl_languages (l : Str) (h : l ∈ languages) : '\n' ∉ l := by
  simp only [languages, List.mem_cons, List.not_mem_nil, or_false] at h
  rcases h with rfl | rfl <;> decide

/-! ## The claims -/

/-- C3: `_get_api_key` returns the secrets-store value whenever the store has
the key (even with the environment variable also set), falls back to the
environment value when only the environment has it, and returns absent when
neither source has a value. -/
theorem c3_credential_resolution :
    (∀ (v : Str) (env : Option Str), _get_api_key (some v) env = some v) ∧
    (∀ v : Str, _get_api_key none (some v) = some v) ∧
    _get_api_key none none = none :=
  ⟨fun _ _ => rfl, fun _ => rfl, rfl⟩

/-- C4: with no credential in either source, both `generate_novel` and the
submit handler halt with the configuration error before any outbound
chat-completion call is issued (the recorded call list is empty). -/
theorem c4_missing_credential_halts :
    ∀ (sdk : SdkStyle) (backend : Backend) (r : StoryRequest) (ui : UIState),
      generate_novel sdk none none backend r =
        { outcome := GenOutcome.halted, calls := [], branches := [], keyResolutions := 1 } ∧
      (ctaRun sdk none none backend ui).outcome = CtaOutcome.missingKeyError ∧
      (ctaRun sdk none none backend ui).calls = [] :=
  fun _ _ _ _ => ⟨rfl, rfl, rfl⟩

/-- C5: when the backend call succeeds with some message content, the
Completion Client returns exactly that content with surrounding whitespace
trimmed. -/
theorem c5_success_returns_trimmed (sdk : SdkStyle) (secret env : Option Str)
    (backend : Backend) (r : StoryRequest) (content : Str)
    (hkey : pyFalsy (_get_api_key secret env) = false)
    (hok : backend (chatRequestOf sdk r) = Except.ok content) :
    (generate_novel sdk secret env backend r).outcome =
      GenOutcome.success (pyStrip content) := by
  rw [generate_novel_branch sdk secret env backend r hkey]
  cases sdk
  · show (runNewBranch backend r).outcome = _
    have hok2 : backend (newChatRequest r) = Except.ok content := hok
    simp only [runNewBranch]
    rw [hok2]
  · show (runLegacyBranch backend r).outcome = _
    have hok2 : backend (legacyChatRequest r) = Except.ok content := hok
    simp only [runLegacyBranch]
    rw [hok2]

/-- C5 witness: a key in the secrets store, a stub backend answering padded
text, and the spec's example request: the adapter returns the trimmed text. -/
theorem c5_success_returns_trimmed_witness :
    pyFalsy (_get_api_key sec0 none) = false ∧
    okBackend (chatRequestOf SdkStyle.new r0) = Except.ok ("  THE END.  ".data) ∧
    (generate_novel SdkStyle.new sec0 none okBackend r0).outcome =
      GenOutcome.success (pyStrip ("  THE END.  ".data)) :=
  ⟨rfl, rfl, c5_success_returns_trimmed SdkStyle.new sec0 none okBackend r0 _ rfl rfl⟩

/-- C2: when the backend raises, `generate_novel` catches the exception and
raises the single generic error kind whose message is the original failure
text behind a fixed prefix (so the original text is contained in it), and it
issues exactly one outbound call — no retry. -/
theorem c2_error_wrapped_no_retry (sdk : SdkStyle) (secret env : Option Str)
    (backend : Backend) (r : StoryRequest) (e : Str)
    (hkey : pyFalsy (_get_api_key secret env) = false)
    (herr : backend (chatRequestOf sdk r) = Except.error e) :
    (generate_novel sdk secret env backend r).outcome =
        GenOutcome.apiError (apiErrPrefix ++ e) ∧
      e <:+ apiErrPrefix ++ e ∧
      (generate_novel sdk secret env backend r).calls = [chatRequestOf sdk r] := by
  rw [generate_novel_branch sdk secret env backend r hkey]
  cases sdk
  · have herr2 : backend (newChatRequest r) = Except.error e := herr
    refine ⟨?_, ⟨apiErrPrefix, rfl⟩, ?_⟩
    · show (runNewBranch backend r).outcome = _
      simp only [runNewBranch]
      rw [herr2]
    · show (runNewBranch backend r).calls = _
      simp only [runNewBranch]
      rw [herr2]
      rfl
  · have herr2 : backend (legacyChatRequest r) = Except.error e := herr
    refine ⟨?_, ⟨apiErrPrefix, rfl⟩, ?_⟩
    · show (runLegacyBranch backend r).outcome = _
      simp only [runLegacyBranch]
      rw [herr2]
    · show (runLegacyBranch backend r).calls = _
      simp only [runLegacyBranch]
      rw [herr2]
      rfl

/-- C2 witness: with a key present and a backend that raises `boom`, the
adapter ends in the wrapped error and issued exactly one call. -/
theorem c2_error_wrapped_no_retry_witness :
    pyFalsy (_get_api_key sec0 none) = false ∧
    errBackend (chatRequestOf SdkStyle.legacy r0) = Except.error ("boom".data) ∧
    ((generate_novel SdkStyle.legacy sec0 none errBackend r0).outcome =
        GenOutcome.apiError (apiErrPrefix ++ "boom".data) ∧
      "boom".data <:+ apiErrPrefix ++ "boom".data ∧
      (generate_novel SdkStyle.legacy sec0 none errBackend r0).calls =
        [chatRequestOf SdkStyle.legacy r0]) :=
  ⟨rfl, rfl, c2_error_wrapped_no_retry SdkStyle.legacy sec0 none errBackend r0 _ rfl rfl⟩

/-- C6: with a usable credential, every generation issues exactly one
request holding the requested model, the requested temperature, the fixed
`max_tokens = 4096` constant (independent of `targetWords`), and exactly two
messages in order: the fixed system instruction, then the Prompt Builder
output as the user message.  This holds for both SDK branches. -/
theorem c6_request_shape (sdk : SdkStyle) (secret env : Option Str)
    (backend : Backend) (r : StoryRequest)
    (hkey : pyFalsy (_get_api_key secret env) = false) :
    (generate_novel sdk secret env backend r).calls =
      [ { model := r.model, temperature := r.temperature, max_tokens := 4096,
          messages :=
            [ { role := "system".data, content := systemContent },
              { role := "user".data, content := styleGuideOf r } ] } ] := by
  rw [generate_novel_branch sdk secret env backend r hkey]
  cases sdk
  · show (runNewBranch backend r).calls = _
    simp only [runNewBranch]
    cases backend (newChatRequest r) <;> rfl
  · show (runLegacyBranch backend r).calls = _
    simp only [runLegacyBranch]
    cases backend (legacyChatRequest r) <;> rfl

/-- C6 witness: the concrete example request with a stored key produces
exactly that one request. -/
theorem c6_request_shape_witness :
    pyFalsy (_get_api_key sec0 none) = false ∧
    (generate_novel SdkStyle.new sec0 none okBackend r0).calls =
      [ { model := r0.model, temperature := r0.temperature, max_tokens := 4096,
          messages :=
            [ { role := "system".data, content := systemContent },
              { role := "user".data, content := styleGuideOf r0 } ] } ] :=
  ⟨rfl, c6_request_shape SdkStyle.new sec0 none okBackend r0 rfl⟩

/-- C9: the Prompt Builder is deterministic — two requests agreeing on every
field produce byte-identical instruction strings. -/
theorem c9_prompt_builder_deterministic (a b : StoryRequest)
    (h1 : a.protagonist1 = b.protagonist1) (h2 : a.protagonist2 = b.protagonist2)
    (h3 : a.genre = b.genre) (h4 : a.premise = b.premise)
    (h5 : a.language = b.language) (h6 : a.targetWords = b.targetWords)
    (_h7 : a.temperature = b.temperature) (_h8 : a.model = b.model) :
    styleGuideOf a = styleGuideOf b := by
  unfold styleGuideOf
  rw [h1, h2, h3, h4, h5, h6]

/-- C9 witness: two separately written copies of the example request build
the same prompt. -/
theorem c9_prompt_builder_deterministic_witness :
    (r0.protagonist1 = r0copy.protagonist1 ∧ r0.premise = r0copy.premise) ∧
    styleGuideOf r0 = styleGuideOf r0copy :=
  ⟨⟨rfl, rfl⟩,
    c9_prompt_builder_deterministic r0 r0copy rfl rfl rfl rfl rfl rfl rfl rfl⟩

/-- C10: the new-SDK and legacy-SDK branches are observationally equivalent:
they build identical request parameters and, against the same backend, end
in the same outcome and the same call list. -/
theorem c10_branches_equivalent (backend : Backend) (r : StoryRequest) :
    newChatRequest r = legacyChatRequest r ∧
    (runNewBranch backend r).outcome = (runLegacyBranch backend r).outcome ∧
    (runNewBranch backend r).calls = (runLegacyBranch backend r).calls := by
  have h : legacyChatRequest r = newChatRequest r := rfl
  refine ⟨rfl, ?_, ?_⟩ <;>
    · simp only [runNewBranch, runLegacyBranch, h]
      cases backend (newChatRequest r) <;> rfl

/-- C7 counterexample: the credential is not resolved exactly once per
process — a single button press with a stored key already resolves it
twice (once in the handler, once in `_get_client`). -/
theorem c7_counterexample :
    (ctaRun SdkStyle.new sec0 none okBackend ui0).keyResolutions ≠ 1 := by
  decide

/-- C7 (amended): the credential sources are fixed and never mutated, but
resolution is repeated rather than cached: `generate_novel` resolves the key
exactly once on every invocation, so a submission that passes the handler's
own check resolves it exactly twice. -/
theorem c7_key_resolved_per_use (sdk : SdkStyle) (secret env : Option Str)
    (backend : Backend) (ui : UIState)
    (hkey : pyFalsy (_get_api_key secret env) = false)
    (h1 : ui.protagonist1.isEmpty = false) (h2 : ui.protagonist2.isEmpty = false)
    (h3 : ui.premise.isEmpty = false) :
    (ctaRun sdk secret env backend ui).keyResolutions = 2 ∧
    (∀ r : StoryRequest,
      (generate_novel sdk secret env backend r).keyResolutions = 1) := by
  refine ⟨?_, fun r => generate_novel_oneKeyLookup sdk secret env backend r⟩
  unfold ctaRun
  simp [hkey, h1, h2, h3, generate_novel_oneKeyLookup]

/-- C7 witness: a concrete run resolving the credential exactly twice. -/
theorem c7_key_resolved_per_use_witness :
    pyFalsy (_get_api_key sec0 none) = false ∧
    ui0.protagonist1.isEmpty = false ∧ ui0.protagonist2.isEmpty = false ∧
    ui0.premise.isEmpty = false ∧
    (ctaRun SdkStyle.legacy sec0 none okBackend ui0).keyResolutions = 2 :=
  ⟨rfl, rfl, rfl, rfl,
    (c7_key_resolved_per_use SdkStyle.legacy sec0 none okBackend ui0 rfl rfl rfl rfl).1⟩

/-- C8: the SDK call shape is selected once, at import time, from which
library variant imported (`new` exactly when the new-style SDK is
importable), and every generation served during the process lifetime runs on
that same branch — no request ever records a different shape. -/
theorem c8_sdk_shape_fixed (newImportable : Bool) (secret env : Option Str)
    (backend : Backend) (reqs : List StoryRequest) :
    ((processRun newImportable secret env backend reqs).all
        (fun gres => gres.branches.all
          (fun s => decide (s = sdkStyleOf newImportable)))) = true ∧
    (sdkStyleOf newImportable = SdkStyle.new ↔ newImportable = true) := by
  constructor
  · rw [List.all_eq_true]
    intro gres hmem
    simp only [processRun, List.mem_map] at hmem
    obtain ⟨r, hr, rfl⟩ := hmem
    rw [List.all_eq_true]
    intro s hs
    rcases generate_novel_branchlog (sdkStyleOf newImportable) secret env backend r with
      hb | hb
    · rw [hb] at hs; cases hs
    · rw [hb, List.mem_singleton] at hs
      subst hs
      simp
  · cases newImportable
    · simp [sdkStyleOf]
    · simp [sdkStyleOf]

set_option maxRecDepth 100000 in
/-- C1 counterexample: the fields do not each occur exactly once: a valid
request whose first protagonist is named `a` makes that name occur many
times in the prompt (inside `and`, `a strong hook`, `a satisfying arc`, …). -/
theorem c1_counterexample :
    ValidRequest cexReq ∧
    countOccs cexReq.protagonist1 (styleGuideOf cexReq) ≠ 1 := by
  constructor
  · decide
  · decide

/-- C1 (amended): for every valid request whose protagonist names and
premise contain no newline, the Prompt Builder output contains the genre,
both protagonist names, the language, and the trimmed premise — each at
least once. -/
theorem c1_prompt_embeds_fields (r : StoryRequest) (hv : ValidRequest r)
    (h1 : '\n' ∉ r.protagonist1) (h2 : '\n' ∉ r.protagonist2)
    (h3 : '\n' ∉ r.premise) :
    r.genre <:+: styleGuideOf r ∧
    r.protagonist1 <:+: styleGuideOf r ∧
    r.protagonist2 <:+: styleGuideOf r ∧
    r.language <:+: styleGuideOf r ∧
    pyStrip r.premise <:+: styleGuideOf r := by
  obtain ⟨-, -, hne, hg, hlang, -⟩ := hv
  have hgn : '\n' ∉ r.genre := no_nl_genres _ hg
  have hln : '\n' ∉ r.language := no_nl_languages _ hlang
  have hsg : styleGuideOf r = joinNl (coreLines r.protagonist1 r.protagonist2 r.genre
      r.language r.targetWords (pyStrip r.premise)) :=
    style_guide_eq _ _ _ _ _ _ h1 h2 hgn hln h3 hne
  rw [hsg]
  have hmemG : ("- Genre: ".data ++ r.genre) ∈ coreLines r.protagonist1 r.protagonist2
      r.genre r.language r.targetWords (pyStrip r.premise) := by simp [coreLines]
  have hmemC : ("- Main characters: ".data ++
        (r.protagonist1 ++ (" and ".data ++ r.protagonist2))) ∈
      coreLines r.protagonist1 r.protagonist2 r.genre r.language r.targetWords
        (pyStrip r.premise) := by simp [coreLines]
  have hmemW : ("Write a complete short story in ".data ++ (r.language ++ ".".data)) ∈
      coreLines r.protagonist1 r.protagonist2 r.genre r.language r.targetWords
        (pyStrip r.premise) := by simp [coreLines]
  have hmemP : pyStrip r.premise ∈ coreLines r.protagonist1 r.protagonist2 r.genre
      r.language r.targetWords (pyStrip r.premise) := by simp [coreLines]
  refine ⟨?_, ?_, ?_, ?_, ?_⟩
  · exact List.IsInfix.trans
      (List.IsSuffix.isInfix (List.suffix_append ("- Genre: ".data) r.genre))
      (infix_joinNl _ _ hmemG)
  · refine List.IsInfix.trans ?_ (infix_joinNl _ _ hmemC)
    exact ⟨"- Main characters: ".data, " and ".data ++ r.protagonist2,
      by rw [List.append_assoc]⟩
  · refine List.IsInfix.trans ?_ (infix_joinNl _ _ hmemC)
    refine List.IsSuffix.isInfix ?_
    exact List.IsSuffix.trans (List.suffix_append (" and ".data) r.protagonist2)
      (List.IsSuffix.trans
        (List.suffix_append r.protagonist1 (" and ".data ++ r.protagonist2))
        (List.suffix_append ("- Main characters: ".data)
          (r.protagonist1 ++ (" and ".data ++ r.protagonist2))))
  · refine List.IsInfix.trans ?_ (infix_joinNl _ _ hmemW)
    exact ⟨"Write a complete short story in ".data, ".".data, by rw [List.append_assoc]⟩
  · exact infix_joinNl _ _ hmemP

/-- C1 witness: the spec's end-to-end example request embeds all five
fields in the prompt. -/
theorem c1_prompt_embeds_fields_witness :
    (ValidRequest r0 ∧ '\n' ∉ r0.protagonist1 ∧ '\n' ∉ r0.protagonist2 ∧
      '\n' ∉ r0.premise) ∧
    (r0.genre <:+: styleGuideOf r0 ∧
      r0.protagonist1 <:+: styleGuideOf r0 ∧
      r0.protagonist2 <:+: styleGuideOf r0 ∧
      r0.language <:+: styleGuideOf r0 ∧
      pyStrip r0.premise <:+: styleGuideOf r0) :=
  ⟨⟨by decide, by decide, by decide, by decide⟩,
    c1_prompt_embeds_fields r0 (by decide) (by decide) (by decide) (by decide)⟩

end Book0821
